import Mathlib

/-!
Verification of the PEPCO SS26 PDF field-extraction and record-derivation
pipeline (`PEPCO_SS26_updated.py` / `app.py`), via a shallow embedding of the
core functions into Lean.  Numeric price values are modelled as exact integer
multiples of 0.01 ("cents"), which is the domain of the price ladder; Python
strings are modelled as Lean `String`s (ASCII case conversion) and Python
`re` patterns used by the code are hand-compiled to explicit scanning
functions with Python's leftmost-then-backtracking match semantics.
-/

namespace Pepco

/-! ## Character classes (Python `\d`, `\s`, `\w`, ASCII model) -/

def isDigitC (c : Char) : Bool := c.isDigit

def isSpaceC (c : Char) : Bool :=
  c = ' ' || c = '\t' || c = '\n' || c = '\r' || c = '\x0b' || c = '\x0c'

def isWordC (c : Char) : Bool := c.isAlphanum || c = '_'

/-! ## Python-style string helpers -/

/-- Python `sub in s` on char lists: `sub` occurs contiguously in `l`. -/
def isSubList (sub : List Char) : List Char → Bool
  | [] => sub.isEmpty
  | c :: t => sub.isPrefixOf (c :: t) || isSubList sub t

/-- Python `sub in s` (substring containment). -/
def containsSub (s sub : String) : Bool := isSubList sub.data s.data

/-- Python `str.lower()` (ASCII model). -/
def asciiLower (s : String) : String := String.mk (s.data.map Char.toLower)

/-- Python `str.upper()` (ASCII model). -/
def asciiUpper (s : String) : String := String.mk (s.data.map Char.toUpper)

/-- Python `str.strip()` (ASCII whitespace model). -/
def pyStripL (l : List Char) : List Char :=
  ((l.dropWhile isSpaceC).reverse.dropWhile isSpaceC).reverse

/-- Python `str.strip()` on `String`s. -/
def pyStrip (s : String) : String := String.mk (pyStripL s.data)

/-! ## `format_number` (PEPCO_SS26_updated.py lines 207-222)

Python formats `f"{float(value):,.2f}"` (two decimals, comma thousands
grouping, period decimal point), replaces every `.` by `,`, then splits on
`,` and strips periods from the first part before rejoining.  A value is an
exact number of cents, `cents : Int`. -/

/-- Decimal digits of `n`, most significant first. -/
def natDigits (n : Nat) : List Char := Nat.toDigits 10 n

/-- Insert `,` every three digits counting from the right; input is reversed
digit list, `k` counts digits emitted since the last separator. -/
def group3rev : List Char → Nat → List Char
  | [], _ => []
  | c :: t, k => if k = 3 then ',' :: c :: group3rev t 1 else c :: group3rev t (k + 1)

/-- Thousands-grouped decimal rendering of a natural number. -/
def group3 (n : Nat) : List Char := (group3rev (natDigits n).reverse 0).reverse

/-- Exactly two decimal digits for `n < 100`. -/
def pad2 (n : Nat) : List Char := [Char.ofNat (48 + n / 10 % 10), Char.ofNat (48 + n % 10)]

/-- Python `f"{v:,.2f}"` for `v = cents / 100` exactly representable. -/
def pyFormat2f (cents : Int) : List Char :=
  (if cents < 0 then ['-'] else []) ++ group3 (cents.natAbs / 100) ++ '.' :: pad2 (cents.natAbs % 100)

/-- Python `s.replace(".", ",")` (single-char pattern). -/
def replaceDotComma (l : List Char) : List Char := l.map (fun c => if c = '.' then ',' else c)

/-- Python `s.split(',')`. -/
def splitOnComma : List Char → List (List Char)
  | [] => [[]]
  | c :: t =>
    if c = ',' then [] :: splitOnComma t
    else match splitOnComma t with
      | [] => [[c]]
      | h :: r => (c :: h) :: r

/-- Python `','.join(parts)`. -/
def joinComma : List (List Char) → List Char
  | [] => []
  | [x] => x
  | x :: r => x ++ ',' :: joinComma r

/-- Python `s.replace('.', '')` (single-char pattern). -/
def removeDots (l : List Char) : List Char := l.filter (fun c => c ≠ '.')

/-- Python `int(float(value))`: truncation toward zero of `cents / 100`. -/
def truncInt (cents : Int) : Int :=
  if 0 ≤ cents then ((cents.natAbs / 100 : Nat) : Int) else -((cents.natAbs / 100 : Nat) : Int)

/-- `format_number(value, currency)` from PEPCO_SS26_updated.py lines 207-222,
with `value` an exact number of cents (no ValueError/TypeError can occur). -/
def format_number (cents : Int) (currency : String) : String :=
  if ["EUR", "BGN", "BAM", "RON", "PLN"].contains currency then
    let formatted := replaceDotComma (pyFormat2f cents)
    if formatted.contains ',' then
      match splitOnComma formatted with
      | [] => String.mk (joinComma [])
      | h :: r => String.mk (joinComma (removeDots h :: r))
    else String.mk formatted
  else toString (truncInt cents)

/-! ## `find_closest_price` (PEPCO_SS26_updated.py lines 224-247)

The price table is the in-memory dict built by `load_price_data`: one column
of values per currency code, modelled as an association list of cent columns.
`values[idx]` out of range would raise IndexError in Python (not caught by
the `except (ValueError, TypeError)` clause); that outcome is modelled as
`none` in the per-currency entry. -/

def lookupCol (k : String) (pd : List (String × List Int)) : Option (List Int) :=
  (pd.find? (fun p => p.1 == k)).map (fun p => p.2)

def find_closest_price (pln_value : Int) (price_data : List (String × List Int)) :
    Option (List (String × Option String)) :=
  match lookupCol "PLN" price_data with
  | none => none
  | some available_pln_values =>
    match available_pln_values.findIdx? (fun v => v == pln_value) with
    | none => none
    | some idx =>
      some (price_data.filterMap (fun p =>
        if p.1 == "PLN" then none
        else some (p.1, (p.2.get? idx).map (fun v => format_number v p.1))))

/-! ## Classification (PEPCO_SS26_updated.py lines 315-372) -/

/-- `get_classification_type(item_class)`, lines 315-341: ordered
case-insensitive substring rules, first match wins; empty input is falsy. -/
def get_classification_type (item_class : String) : Option String :=
  if item_class = "" then none
  else
    let ic := asciiLower item_class
    if containsSub ic "younger girls outerwear" then some "yg"
    else if containsSub ic "baby boys outerwear" then some "b"
    else if containsSub ic "baby girls outerwear" then some "a"
    else if containsSub ic "baby boys essentials" then some "d"
    else if containsSub ic "baby girls essentials" then some "d_girls"
    else if containsSub ic "younger boys outerwear" then some "yg"
    else if containsSub ic "older girls outerwear" then some "yg"
    else if containsSub ic "older boys outerwear" then some "yg"
    else if containsSub ic "ladies outerwear" then some "a"
    else if containsSub ic "mens outerwear" then some "b"
    else none

/-- `get_dept_value(item_class)`, lines 343-360. -/
def get_dept_value (item_class : String) : String :=
  if item_class = "" then ""
  else
    let ic := asciiLower item_class
    if ["baby boys outerwear", "baby girls outerwear",
        "baby boys essentials", "baby girls essentials"].any (fun x => containsSub ic x) then "BABY"
    else if ["younger boys outerwear", "younger girls outerwear"].any (fun x => containsSub ic x) then "KIDS"
    else if ["older girls outerwear", "older boys outerwear"].any (fun x => containsSub ic x) then "TEENS"
    else if containsSub ic "ladies outerwear" then "WOMEN"
    else if containsSub ic "mens outerwear" then "MEN"
    else ""

/-- `modify_collection(collection, item_class)`, lines 362-372. -/
def modify_collection (collection item_class : String) : String :=
  if item_class = "" then collection
  else
    let ic := asciiLower item_class
    if ["younger boys outerwear", "older boys outerwear"].any (fun x => containsSub ic x) then
      collection ++ " B"
    else if ["older girls outerwear", "younger girls outerwear"].any (fun x => containsSub ic x) then
      collection ++ " G"
    else collection

/-- The ten classification rules in the order listed in spec §4.4 (also the
order of the `elif` chain in the source); used to compare the code against
the spec's ordered-rule-table reading. -/
def classification_rules : List (String × String) :=
  [("younger girls outerwear", "yg"), ("baby boys outerwear", "b"),
   ("baby girls outerwear", "a"), ("baby boys essentials", "d"),
   ("baby girls essentials", "d_girls"), ("younger boys outerwear", "yg"),
   ("older girls outerwear", "yg"), ("older boys outerwear", "yg"),
   ("ladies outerwear", "a"), ("mens outerwear", "b")]

/-- First-match evaluation of the spec §4.4 rule table. -/
def firstMatchClassification (s : String) : Option String :=
  (classification_rules.find? (fun r => containsSub (asciiLower s) r.1)).map (fun r => r.2)

/-! ## `extract_colour_from_page2` (PEPCO_SS26_updated.py lines 374-412)

The two `st.text_input` fallbacks (literal "MANUAL" detected, or no line
surviving the filter) pause for an operator-supplied value; that outcome is
the `requiresManual` constructor. -/

inductive ColourResult where
  | ok (colour : String)
  | requiresManual
  deriving DecidableEq, Repr

def skip_keywords : List String :=
  ["PURCHASE", "COLOUR", "TOTAL", "PANTONE", "SUPPLIER",
   "PRICE", "ORDERED", "SIZES", "TPG", "TPX", "USD", "NIP",
   "PEPCO", "Poland", "ul. Strzeszyńska 73A, 60-479 Poznań",
   "NIP 782-21-31-157"]

/-- Python `text.splitlines()` (ASCII model: split at `\n` or `\r`; the extra
empty piece a `\r\n` pair produces is dropped by the non-empty filter). -/
def splitLinesL : List Char → List (List Char)
  | [] => [[]]
  | c :: t =>
    if c = '\n' || c = '\r' then [] :: splitLinesL t
    else match splitLinesL t with
      | [] => [[c]]
      | h :: r => (c :: h) :: r

/-- Lines of the page: stripped, empties dropped (line 376). -/
def pageLines (text : String) : List String :=
  ((splitLinesL text.data).map (fun l => String.mk (pyStripL l))).filter (fun l => l ≠ "")

/-- The noise-line test of line 385: `re.match` anchored at the start with a
character class of digits, whitespace, comma, period, slash and hyphen,
repeated to the end of the (non-empty) line. -/
def isNoiseLine (line : String) : Bool :=
  line.data.all (fun c => isDigitC c || isSpaceC c || c = ',' || c = '.' || c = '/' || c = '-')

/-- The filtered survivor lines (lines 382-386). -/
def survivors (text : String) : List String :=
  (pageLines text).filter (fun line =>
    skip_keywords.all (fun k => !containsSub (asciiLower line) (asciiLower k))
    && !isNoiseLine line)

/-- `re.sub(r'[\d\.\)\(]+', '', colour).strip().upper()` (lines 390-391). -/
def cleanColour (line : String) : String :=
  asciiUpper (pyStrip (String.mk (line.data.filter
    (fun c => !(isDigitC c || c = '.' || c = ')' || c = '(')))))

def extract_colour_from_page2 (text : String) : ColourResult :=
  match survivors text with
  | [] => .requiresManual
  | first :: _ =>
    let colour := cleanColour first
    if containsSub colour "MANUAL" then .requiresManual
    else if colour = "" then .ok "UNKNOWN"
    else .ok colour

/-! ## Hand-compiled `re` patterns for page parsing

Python's `re.search`/`re.findall` scan start positions left to right.  Each
`matchX` function below decides a match anchored at the given suffix;
`searchAt` tries every suffix in order.  Backtracking is compiled away where
the relevant character classes are disjoint, and implemented explicitly where
it matters (the two-or-more-dots run followed by a greedy tail, and the
whitespace run before a "." one-or-more tail). -/

/-- Anchored-match search: first suffix position where `m` succeeds
(`re.search` scan order, including the empty suffix). -/
def searchAt (m : List Char → Option α) : List Char → Option α
  | [] => m []
  | c :: rest =>
    match m (c :: rest) with
    | some v => some v
    | none => searchAt m rest

/-- Literal match, returning the remainder. -/
def lit (p : String) (l : List Char) : Option (List Char) :=
  if p.data.isPrefixOf l then some (l.drop p.data.length) else none

/-- Case-insensitive literal match (`re.IGNORECASE`, ASCII model). -/
def litCI (p : String) (l : List Char) : Option (List Char) :=
  if (p.data.map Char.toLower).isPrefixOf (l.map Char.toLower) then
    some (l.drop p.data.length)
  else none

/-- Greedy `\s*` (no backtracking needed when the continuation cannot start
with whitespace). -/
def skipWs (l : List Char) : List Char := l.dropWhile isSpaceC

/-- Greedy "." one-or-more to end of line, after a backtrackable `\s*`:
try consuming `m` whitespace chars for `m` from the maximum down to 0, and
capture from the first position whose head exists and is not a newline
(`\s` matches newline but "." does not). -/
def tryWsDot (l : List Char) : Nat → Option String
  | 0 =>
    match l.head? with
    | some c => if c = '\n' then none else some (String.mk (l.takeWhile (fun d => d ≠ '\n')))
    | none => none
  | m + 1 =>
    match (l.drop (m + 1)).head? with
    | some c =>
      if c = '\n' then tryWsDot l m
      else some (String.mk ((l.drop (m + 1)).takeWhile (fun d => d ≠ '\n')))
    | none => tryWsDot l m

/-- `\s*` then a captured "." one-or-more (greedy to line end). -/
def wsThenDotPlus (l : List Char) : Option String :=
  tryWsDot l (l.takeWhile isSpaceC).length

/-- Two-or-more literal dots, greedy with backtracking: try the suffix after
`m` dots for `m` from the whole dot run down to 2. -/
def tryDots (f : List Char → Option α) (l : List Char) : Nat → Option α
  | 0 => none
  | 1 => none
  | m + 2 =>
    match f (l.drop (m + 2)) with
    | some v => some v
    | none => tryDots f l (m + 1)

def dotsThen (f : List Char → Option α) (l : List Char) : Option α :=
  tryDots f l (l.takeWhile (fun c => c = '.')).length

/-- Tail `\s*` then a captured one-or-more run of class `cls` (class and
whitespace disjoint, so the `\s*` is deterministic). -/
def wsThenClassPlus (cls : Char → Bool) (l : List Char) : Option String :=
  let r := skipWs l
  let run := r.takeWhile cls
  if run.isEmpty then none else some (String.mk run)

/-- Pattern "Merch" `\s*` "code" `\s*` dots `\s*` capture of word-or-slash
one-or-more (line 463). -/
def matchMerch (l : List Char) : Option String := do
  let r ← lit "Merch" l
  let r ← lit "code" (skipWs r)
  dotsThen (wsThenClassPlus (fun c => isWordC c || c = '/')) (skipWs r)

/-- Tail of the "Season" pattern after the dots: an optional greedy word run,
`\s*`, then exactly two captured digits.  Tries the word run at length `k`
from its maximum down to 0 (when `k` is below the maximum the next char is a
word char, so the intervening `\s*` is empty and `skipWs` is a no-op). -/
def seasonTailAt (p : List Char) : Nat → Option String
  | 0 =>
    let q := skipWs p
    if (q.take 2).length = 2 && (q.take 2).all isDigitC then some (String.mk (q.take 2)) else none
  | k + 1 =>
    let q := skipWs (p.drop (k + 1))
    if (q.take 2).length = 2 && (q.take 2).all isDigitC then some (String.mk (q.take 2))
    else seasonTailAt p k

/-- Pattern "Season" `\s*` dots `\s*` optional word group, `\s*`, two digits;
only the two-digit group is used by the code (line 464). -/
def matchSeason (l : List Char) : Option String := do
  let r ← lit "Season" l
  dotsThen (fun r2 =>
    let p := skipWs r2
    seasonTailAt p (p.takeWhile isWordC).length) (skipWs r)

/-- Find all word-boundary-delimited runs of exactly `k` digits, in encounter
order (`re.findall` of `\b\d{k}\b`; such matches can never overlap, so a
position-by-position scan is equivalent).  `prev` is the character before the
current position, `none` at the start of the text. -/
def findTokens (k : Nat) (prev : Option Char) : List Char → List String
  | [] => []
  | c :: rest =>
    let here :=
      (match prev with | none => true | some p => !isWordC p)
      && ((c :: rest).take k).length = k
      && ((c :: rest).take k).all isDigitC
      && (match (c :: rest).drop k with | [] => true | d :: _ => !isWordC d)
    if here then String.mk ((c :: rest).take k) :: findTokens k (some c) rest
    else findTokens k (some c) rest

/-- All 8-digit tokens of a page (`skus`, line 502). -/
def findall8 (text : String) : List String := findTokens 8 none text.data

/-- All 13-digit tokens of a page (`all_barcodes`, line 503). -/
def findall13 (text : String) : List String := findTokens 13 none text.data

/-- First 6-digit token of a page (`style_code`, line 466). -/
def firstToken6 (text : String) : Option String := (findTokens 6 none text.data).head?

/-- Anchored match of the exclusion pattern: literal "barcode:", `\s*`,
thirteen captured digits, then a semicolon (line 504). -/
def annotAt (l : List Char) : Option String := do
  let r ← lit "barcode:" l
  let r := skipWs r
  let ds := r.take 13
  if ds.length = 13 && ds.all isDigitC && (r.drop 13).head? = some ';' then
    some (String.mk ds)
  else none

/-- All captured groups of the exclusion pattern, in encounter order (two
matches can never overlap, so a position-by-position scan is equivalent). -/
def findExcluded : List Char → List String
  | [] => []
  | c :: rest =>
    match annotAt (c :: rest) with
    | some ds => ds :: findExcluded rest
    | none => findExcluded rest

/-- `excluded` for a page-3 text (the Python `set` is modelled by list
membership, which is what the `in` test uses). -/
def excludedBarcodes (text : String) : List String := findExcluded text.data

/-- `valid_barcodes = [b for b in all_barcodes if b not in excluded]`
(line 505). -/
def validBarcodes (text : String) : List String :=
  (findall13 text).filter (fun b => !(excludedBarcodes text).contains b)

/-- Pattern "Collection" `\s*` dots `\s*` capture to line end (line 476). -/
def matchCollection (l : List Char) : Option String := do
  let r ← lit "Collection" l
  dotsThen wsThenDotPlus (skipWs r)

/-- Tail of the handover-date pattern: `\s*` then dd/mm/yyyy (digit and slash
positions fixed, so deterministic). -/
def dateTail (l : List Char) : Option String :=
  let r := skipWs l
  let ds := r.take 10
  if ds.length = 10
     && (ds.take 2).all isDigitC && ds.get? 2 = some '/'
     && ((ds.drop 3).take 2).all isDigitC && ds.get? 5 = some '/'
     && (ds.drop 6).all isDigitC then
    some (String.mk ds)
  else none

/-- Pattern "Handover" `\s*` "date" `\s*` dots `\s*` dd/mm/yyyy (line 477). -/
def matchDate (l : List Char) : Option String := do
  let r ← lit "Handover" l
  let r ← lit "date" (skipWs r)
  dotsThen dateTail (skipWs r)

/-- Pattern "Order" `\s*` "-" `\s*` "ID" `\s*` dots `\s*` capture to line end
(line 485, case-sensitive, used by `extract_data_from_pdf`). -/
def matchOrderIdPrimary (l : List Char) : Option String := do
  let r ← lit "Order" l
  let r ← lit "-" (skipWs r)
  let r ← lit "ID" (skipWs r)
  dotsThen wsThenDotPlus (skipWs r)

/-- Character class of the order-id capture in `extract_order_id_only`:
uppercase letters, digits, underscore, plus, hyphen — with `re.IGNORECASE`
lowercase letters match as well. -/
def isOrderIdC (c : Char) : Bool :=
  c.isUpper || c.isLower || c.isDigit || c = '_' || c = '+' || c = '-'

/-- Pattern "Order" `\s*` "-" `\s*` "ID" `\s*` dots `\s*` capture of the
order-id class one-or-more, `re.IGNORECASE` (line 452, used by
`extract_order_id_only`). -/
def matchOrderIdOther (l : List Char) : Option String := do
  let r ← litCI "Order" l
  let r ← litCI "-" (skipWs r)
  let r ← litCI "ID" (skipWs r)
  dotsThen (wsThenClassPlus isOrderIdC) (skipWs r)

/-- Pattern "Item classification" (literal, single inner space) `\s*` dots
`\s*` capture to line end (line 486). -/
def matchItemClass (l : List Char) : Option String := do
  let r ← lit "Item classification" l
  dotsThen wsThenDotPlus (skipWs r)

/-- Pattern "Supplier product code" `\s*` dots `\s*` capture to line end
(line 487). -/
def matchSupplierCode (l : List Char) : Option String := do
  let r ← lit "Supplier product code" l
  dotsThen wsThenDotPlus (skipWs r)

/-- Pattern "Supplier name" `\s*` dots `\s*` capture to line end (line 488). -/
def matchSupplierName (l : List Char) : Option String := do
  let r ← lit "Supplier name" l
  dotsThen wsThenDotPlus (skipWs r)

/-! ## Batch date: `strptime("%d/%m/%Y") - timedelta(days=20)`, `strftime("%m%Y")`
(PEPCO_SS26_updated.py lines 478-483); proleptic Gregorian calendar,
any failure (invalid date, result before year 1) leaves batch "UNKNOWN". -/

def isLeap (y : Nat) : Bool := y % 4 = 0 && (y % 100 ≠ 0 || y % 400 = 0)

def daysInMonth (m y : Nat) : Nat :=
  if m = 2 then (if isLeap y then 29 else 28)
  else if m = 4 || m = 6 || m = 9 || m = 11 then 30
  else 31

def daysBeforeMonth (m : Nat) (leap : Bool) : Nat :=
  let base := [0, 0, 31, 59, 90, 120, 151, 181, 212, 243, 273, 304, 334].getD m 0
  if 3 ≤ m && leap then base + 1 else base

/-- Proleptic-Gregorian ordinal, day 1 = 0001-01-01. -/
def toOrdinal (d m y : Nat) : Nat :=
  365 * (y - 1) + (y - 1) / 4 - (y - 1) / 100 + (y - 1) / 400 + daysBeforeMonth m (isLeap y) + d

/-- Inverse of `toOrdinal` (civil-from-days, era arithmetic); returns
(day, month, year). -/
def fromOrdinal (o : Nat) : Nat × Nat × Nat :=
  let d0 := o - 1 + 306
  let era := d0 / 146097
  let doe := d0 % 146097
  let yoe := (doe - doe / 1460 + doe / 36524 - doe / 146096) / 365
  let y0 := yoe + era * 400
  let doy := doe - (365 * yoe + yoe / 4 - yoe / 100)
  let mp := (5 * doy + 2) / 153
  let d := doy - (153 * mp + 2) / 5 + 1
  let m := if mp < 10 then mp + 3 else mp - 9
  (d, m, if m ≤ 2 then y0 + 1 else y0)

def digitsToNat (l : List Char) : Nat :=
  l.foldl (fun acc c => acc * 10 + (c.toNat - 48)) 0

/-- `(strptime(s, "%d/%m/%Y") - timedelta(days=20)).strftime("%m%Y")` for a
string already in dd/mm/yyyy shape; `none` models the caught exception. -/
def batchFromDate (s : String) : Option String :=
  let d := digitsToNat (s.data.take 2)
  let m := digitsToNat ((s.data.drop 3).take 2)
  let y := digitsToNat (s.data.drop 6)
  if 1 ≤ m && m ≤ 12 && 1 ≤ d && d ≤ daysInMonth m y && 1 ≤ y then
    let o := toOrdinal d m y
    if 20 < o then
      let r := fromOrdinal (o - 20)
      some (String.mk (pad2 r.2.1) ++ Nat.repr r.2.2)
    else none
  else none

/-! ## `COLLECTION_MAPPING` (PEPCO_SS26_updated.py lines 776-810) -/

def COLLECTION_MAPPING : List (String × List (String × String)) :=
  [("b", [("CROCO CLUB", "MODERN 1"), ("LITTLE SAILOR", "MODERN 2"),
          ("EXPLORE THE WORLD", "MODERN 3"), ("JURASIC ADVENTURE", "MODERN 4"),
          ("WESTERN SPIRIT", "CLASSIC 1"), ("SUMMER FUN", "CLASSIC 2")]),
   ("a", [("Rainbow Girl", "MODERN 1"), ("NEONS PICNIC", "MODERN 2"),
          ("COUNTRY SIDE", "ROMANTIC 2"), ("ESTER GARDENG", "ROMANTIC 3")]),
   ("d", [("LITTLE TREASURE", "MODERN 1"), ("DINO FRIENDS", "CLASSIC 1"),
          ("EXOTIC ANIMALS", "CLASSIC 2")]),
   ("d_girls", [("SWEEET PASTELS", "MODERN 1"), ("PORCELAIN", "ROMANTIC 2"),
                ("SUMMER VIBE", "ROMANTIC 3")]),
   ("yg", [("CUTE_JUMP", "COLLECTION_1"), ("SWEET_HEART", "COLLECTION_2"),
           ("DAISY", "COLLECTION_3"), ("SPECIAL OCC", "COLLECTION_4"),
           ("LILALOV", "COLLECTION_5"), ("COOL GIRL", "COLLECTION_6"),
           ("DEL MAR", "COLLECTION_7")])]

/-- Lines 494-498: scan the matched category's pairs in declared order and
substitute the first original name whose upper-cased form occurs in the
upper-cased collection value. -/
def recodeCollection (class_type : Option String) (cv : String) : String :=
  match class_type with
  | none => cv
  | some t =>
    match COLLECTION_MAPPING.find? (fun p => p.1 == t) with
    | none => cv
    | some entry =>
      match entry.2.find? (fun p => containsSub (asciiUpper cv) (asciiUpper p.1)) with
      | some p => p.2
      | none => cv

/-! ## `extract_data_from_pdf` (PEPCO_SS26_updated.py lines 455-526)

The PDF byte parsing (`fitz.open` + `get_text`) is abstracted as the page
texts; `datetime.today()` is the `today` parameter; the operator value typed
into the manual-colour `st.text_input` is the `manualColour` parameter
(`none`/empty both display as "UNKNOWN", lines 395-408). -/

structure Record where
  Order_ID : String
  Style : String
  Colour : String
  Supplier_product_code : String
  Item_classification : String
  Supplier_name : String
  today_date : String
  Collection : String
  Colour_SKU : String
  Style_Merch_Season : String
  Batch : String
  barcode : String
  deriving DecidableEq, Repr

/-- The per-document values copied into every record. -/
structure CommonFields where
  order_id : String
  style : Option String
  colour : String
  supplier_code : String
  item_class : String
  supplier_name : String
  today : String
  collection : String
  style_suffix : String
  batch : String
  deriving DecidableEq, Repr

/-- One element of the comprehension of lines 507-520. -/
def mkRecord (cf : CommonFields) (sku barcode : String) : Record :=
  { Order_ID := cf.order_id
    Style := match cf.style with | some s => s | none => "UNKNOWN"
    Colour := cf.colour
    Supplier_product_code := cf.supplier_code
    Item_classification := cf.item_class
    Supplier_name := cf.supplier_name
    today_date := cf.today
    Collection := cf.collection
    Colour_SKU := cf.colour ++ " • SKU " ++ sku
    Style_Merch_Season :=
      match cf.style with
      | some s => "STYLE " ++ s ++ " • " ++ cf.style_suffix ++ " • Batch No./"
      | none => "STYLE UNKNOWN"
    Batch := "Data e prodhimit: " ++ cf.batch
    barcode := barcode }

/-- The record builder: positional zip of the SKU and valid-barcode lists
(line 520), one record per pair. -/
def buildRecords (cf : CommonFields) (skus barcodes : List String) : List Record :=
  (skus.zip barcodes).map (fun p => mkRecord cf p.1 p.2)

def extract_data_from_pdf (pages : List String) (manualColour : Option String)
    (today : String) : Option (List Record) :=
  if pages.length < 3 then none
  else
    let page1 := (pages.get? 0).getD ""
    let merch_code := searchAt matchMerch page1.data
    let season := searchAt matchSeason page1.data
    let style_code := firstToken6 page1
    let style_suffix :=
      match merch_code, season with
      | some m, some sd => pyStrip m ++ sd
      | some m, none => pyStrip m
      | none, _ => ""
    let collection := searchAt matchCollection page1.data
    let date_match := searchAt matchDate page1.data
    let batch :=
      match date_match with
      | none => "UNKNOWN"
      | some d => match batchFromDate d with | some b => b | none => "UNKNOWN"
    let order_id := searchAt matchOrderIdPrimary page1.data
    let item_class := searchAt matchItemClass page1.data
    let supplier_code := searchAt matchSupplierCode page1.data
    let supplier_name := searchAt matchSupplierName page1.data
    let item_class_value := match item_class with | some s => pyStrip s | none => "UNKNOWN"
    let class_type := get_classification_type item_class_value
    let collection_value :=
      match collection with
      | some c => pyStrip (String.mk (c.data.takeWhile (fun ch => ch ≠ '-')))
      | none => "UNKNOWN"
    let collection_value := recodeCollection class_type collection_value
    let colour :=
      match extract_colour_from_page2 ((pages.get? 1).getD "") with
      | .ok s => s
      | .requiresManual =>
        match manualColour with
        | some m => if m = "" then "UNKNOWN" else asciiUpper m
        | none => "UNKNOWN"
    let page3 := (pages.get? 2).getD ""
    let cf : CommonFields :=
      { order_id := match order_id with | some s => pyStrip s | none => "UNKNOWN"
        style := style_code
        colour := colour
        supplier_code := match supplier_code with | some s => pyStrip s | none => "UNKNOWN"
        item_class := item_class_value
        supplier_name := match supplier_name with | some s => pyStrip s | none => "UNKNOWN"
        today := today
        collection := collection_value
        style_suffix := style_suffix
        batch := batch }
    some (buildRecords cf (findall8 page3) (validBarcodes page3))

/-! ## Order-id merge across documents
(`extract_order_id_only` lines 415-453, `process_pepco_pdf` lines 639-643,
`pepco_section` lines 715-751) -/

/-- The pure core of `extract_order_id_only` applied to a page-1 text:
the case-insensitive restricted pattern, captured group stripped. -/
def extractOrderIdOnlyText (text : String) : Option String :=
  (searchAt matchOrderIdOther text.data).map pyStrip

/-- Python `"+".join(ids)`. -/
def joinPlus : List String → String
  | [] => ""
  | [x] => x
  | x :: r => x ++ "+" ++ joinPlus r

/-- `pepco_section` collects the order ids of every document after the first
(keeping truthy results only), joins them with "+", and `process_pepco_pdf`
appends the join with a "+" onto the Order_ID of every record of the primary
document. -/
def pepcoMergeOrderIds (recs : List Record) (otherTexts : List String) : List Record :=
  let other_ids := (otherTexts.filterMap extractOrderIdOnlyText).filter (fun s => s ≠ "")
  let concatenated := if other_ids.isEmpty then "" else joinPlus other_ids
  if concatenated ≠ "" then
    recs.map (fun r => { r with Order_ID := r.Order_ID ++ "+" ++ concatenated })
  else recs

/-! ## File-position model (spec §5; `extract_order_id_only` lines 415-453,
`extract_data_from_pdf` line 457)

An uploaded file is a byte stream with a read position; `read()` consumes
from the current position to the end and leaves the position there.  The PDF
parser (`fitz.open` on the bytes plus per-page `get_text`) is an oracle
`parse`; `none` models a parsing exception. -/

structure PyFile where
  content : List Char
  pos : Nat
  deriving DecidableEq, Repr

def fileRead (f : PyFile) : List Char × PyFile :=
  (f.content.drop f.pos, { f with pos := f.content.length })

def fileSeek (f : PyFile) (p : Nat) : PyFile := { f with pos := p }

/-- `extract_order_id_only(file)`: remembers `tell()`, seeks to 0, reads,
and seeks back to the remembered position on the success path and on both
error paths before returning. -/
def extract_order_id_only_io (parse : List Char → Option (List String)) (f : PyFile) :
    Option String × PyFile :=
  let pos := f.pos
  let f1 := fileSeek f 0
  let rd := fileRead f1
  match parse rd.1 with
  | none => (none, fileSeek rd.2 pos)
  | some pages =>
    if pages.length < 1 then (none, fileSeek rd.2 pos)
    else (extractOrderIdOnlyText (((pages.get? 0).getD "")), fileSeek rd.2 pos)

/-- `extract_data_from_pdf(file)` reads the stream where it stands and never
repositions it. -/
def extract_data_from_pdf_io (parse : List Char → Option (List String)) (f : PyFile)
    (manualColour : Option String) (today : String) : Option (List Record) × PyFile :=
  let rd := fileRead f
  match parse rd.1 with
  | none => (none, rd.2)
  | some pages => (extract_data_from_pdf pages manualColour today, rd.2)

/-! ## `format_product_translations` (PEPCO_SS26_updated.py lines 265-313)

A translation row is a map from language-column name to an optional text
(`none` models a missing / NaN cell; the table always has the language
columns, so direct indexing raises nothing and a NaN cell prints as "nan").
`selected_materials`, `material_translations` and `material_compositions`
are the list/dict arguments of the call; Python truthiness of each is
non-emptiness. -/

def language_order : List String :=
  ["AL", "BG", "BiH", "CZ", "DE", "EE", "ES",
   "GR", "HR", "HU", "IT", "LT", "LV", "MK",
   "PL", "PT", "RO", "RS", "SI", "SK"]

/-- Python `f"{v}"` of a cell that may be NaN. -/
def pyStr (v : Option String) : String :=
  match v with
  | some s => s
  | none => "nan"

/-- Python `d.get(lang, "")`. -/
def dictGetD (d : List (String × String)) (k : String) : String :=
  match d.find? (fun p => p.1 == k) with
  | some p => p.2
  | none => ""

/-- Python `text.endswith('.')`. -/
def endsWithDot (s : String) : Bool := s.data.getLast? == some '.'

/-- The text assembled for one language of the loop of lines 287-311 (the
segment prefix excluded). -/
def segText (product_name : String) (row : String → Option String)
    (selected_materials : List String) (material_translations : List (String × String))
    (material_compositions : List (String × String)) (lang : String) : String :=
  let text0 :=
    if lang == "ES" then
      match row "ES_CA" with
      | some ca => pyStr (row "ES") ++ " / " ++ ca
      | none => pyStr (row "ES")
    else
      match row lang with
      | some t => t
      | none => product_name
  let text1 :=
    if !selected_materials.isEmpty && !material_translations.isEmpty
        && ["AL", "BG", "MK", "RS"].contains lang then
      let material_text := dictGetD material_translations lang
      if material_text ≠ "" then
        if !material_compositions.isEmpty then
          let composition_text := dictGetD material_compositions lang
          if composition_text ≠ "" then text0 ++ ": " ++ composition_text else text0
        else text0 ++ ": " ++ material_text
      else text0
    else text0
  if lang == "BiH" then
    (if endsWithDot text1 then text1 else text1 ++ ".") ++ " Sastav materijala na ušivenoj etiketi."
  else if lang == "RS" then
    (if endsWithDot text1 then text1 else text1 ++ ".") ++ " Sastav materijala nalazi se na ušivenoj etiketi."
  else text1

/-- Python `" ".join(formatted)`. -/
def joinSpace : List String → String
  | [] => ""
  | [x] => x
  | x :: r => x ++ " " ++ joinSpace r

/-- The EN text of line 272. -/
def enText (product_name : String) (row : String → Option String) : String :=
  match row "EN" with
  | some t => t
  | none => product_name

def format_product_translations (product_name : String) (row : String → Option String)
    (selected_materials : List String) (material_translations : List (String × String))
    (material_compositions : List (String × String)) : String :=
  joinSpace (("|EN| " ++ enText product_name row) ::
    language_order.map (fun lang =>
      "|" ++ lang ++ "| " ++
        segText product_name row selected_materials material_translations
          material_compositions lang))

/-! ## Re-parsing the assembled string into language segments (spec §8
round-trip property) -/

/-- All 21 language tags, EN first. -/
def allLangTags : List String := "EN" :: language_order

/-- The marker that opens the segment of language `t`. -/
def tagMarker (t : String) : List Char := '|' :: t.data ++ ['|', ' ']

/-- Prefix test on char lists. -/
def isPre : List Char → List Char → Bool
  | [], _ => true
  | _ :: _, [] => false
  | a :: as, b :: bs => a == b && isPre as bs

/-- The tag whose marker starts at the head of `l`, if any (the 21 markers
are mutually prefix-free, so at most one matches). -/
def tagAt (l : List Char) : Option String :=
  allLangTags.find? (fun t => isPre (tagMarker t) l)

/-- The language tags whose markers occur in `l`, in positional order. -/
def parseTags : List Char → List String
  | [] => []
  | c :: rest =>
    match tagAt (c :: rest) with
    | some t => t :: parseTags rest
    | none => parseTags rest

/-- The 21 per-language texts of one assembled string, EN first (the text of
each segment of `format_product_translations`, in order). -/
def segTextsAll (pn : String) (row : String → Option String) (sm : List String)
    (mt mc : List (String × String)) : List String :=
  enText pn row :: language_order.map (segText pn row sm mt mc)

/-- Whether any of the ten classification substrings occurs (case-insensitively)
in an item-classification string. -/
def anyRuleMatch (s : String) : Bool :=
  classification_rules.any (fun r => containsSub (asciiLower s) r.1)

/-! # Theorems for the claims -/

/-- The code's `elif` chain agrees with first-match evaluation of the spec's
ordered rule table. -/
theorem classify_eq_firstMatch (s : String) :
    get_classification_type s = if s = "" then none else firstMatchClassification s := by
  by_cases hs : s = ""
  · simp [get_classification_type, hs]
  · simp only [get_classification_type, firstMatchClassification, classification_rules, hs,
      if_false, List.find?_cons, List.find?_nil, cond_eq_if, apply_ite (Option.map _),
      Option.map_some', Option.map_none']
    repeat' split <;> simp_all

/-- Classification succeeds exactly when the input is non-empty and some rule
substring occurs. -/
theorem classify_isSome_eq (s : String) :
    (get_classification_type s).isSome = (!(s == "") && anyRuleMatch s) := by
  rw [classify_eq_firstMatch]
  by_cases hs : s = ""
  · simp [hs]
  · simp only [hs, if_false, beq_iff_eq, Bool.not_eq_true']
    have hne : (s == "") = false := by simpa using hs
    rw [hne]
    simp only [Bool.not_false, Bool.true_and, firstMatchClassification, anyRuleMatch,
      Option.isSome_map]
    rw [Bool.eq_iff_iff]
    simp [List.find?_isSome, List.any_eq_true]

/-- The department is non-empty exactly when the input is non-empty and some
rule substring occurs. -/
theorem dept_nonempty_iff (s : String) :
    get_dept_value s ≠ "" ↔ (!(s == "") && anyRuleMatch s) = true := by
  by_cases hs : s = ""
  · simp [get_dept_value, hs]
  · have hne : (s == "") = false := by simpa using hs
    simp only [get_dept_value, hs, if_false, hne, Bool.not_false, Bool.true_and, anyRuleMatch,
      classification_rules, List.any_cons, List.any_nil]
    split_ifs with h1 h2 h3 h4 h5 <;> simp_all <;> tauto

/-- C1: `format_number` at the claim's own example inputs.  For EUR the
value 1234.5 renders as "1,234,50" — the grouping comma survives, because the
period-stripping step of lines 216-218 runs after every period has already
been replaced by a comma, so it strips nothing; the claimed result would be
"1234,50".  The CZK truncation and the sub-1000 EUR case behave as claimed. -/
theorem c1_format_number_eval :
    format_number 123450 "EUR" = "1,234,50"
    ∧ format_number 123450 "CZK" = "1234"
    ∧ format_number 1999 "EUR" = "19,99" :=
  ⟨rfl, rfl, rfl⟩

/-- C3: the record builder produces exactly `min m n` records from a SKU list
of length `m` and a valid-barcode list of length `n`, and the i-th record is
built from `skus[i]` and `barcodes[i]`; entries of the longer list beyond the
shorter length appear in no record. -/
theorem c3_record_builder_zip (cf : CommonFields) (skus barcodes : List String) :
    (buildRecords cf skus barcodes).length = min skus.length barcodes.length
    ∧ ∀ (i : Nat) (s b : String), skus[i]? = some s → barcodes[i]? = some b →
        (buildRecords cf skus barcodes)[i]? = some (mkRecord cf s b) := by
  constructor
  · simp [buildRecords]
  · intro i s b hs hb
    simp only [buildRecords, List.getElem?_map, List.zip, List.getElem?_zipWith, hs, hb,
      Option.map_some']

/-- Witness for C3 at a concrete input: two SKUs, one barcode, one record. -/
theorem c3_record_builder_zip_witness :
    (buildRecords ⟨"o", none, "c", "sc", "ic", "sn", "t", "col", "sf", "b"⟩
        ["11111111", "22222222"] ["1111111111111"]).length = min 2 1
    ∧ (buildRecords ⟨"o", none, "c", "sc", "ic", "sn", "t", "col", "sf", "b"⟩
        ["11111111", "22222222"] ["1111111111111"])[0]? =
        some (mkRecord ⟨"o", none, "c", "sc", "ic", "sn", "t", "col", "sf", "b"⟩
          "11111111" "1111111111111") :=
  ⟨(c3_record_builder_zip _ _ _).1,
   (c3_record_builder_zip _ _ _).2 0 _ _ rfl rfl⟩

/-- C4: the valid-barcode list is the encounter-order list of all 13-digit
tokens with every token removed whose value is captured by a `barcode: ...;`
annotation anywhere in the text: it is a sublist (order preserved, duplicates
allowed) of the token list, an annotated value never survives — even when it
also occurs as a bare token elsewhere — and an unannotated token always
survives.  The concrete conjunct shows a token excluded at both of its bare
occurrences. -/
theorem c4_valid_barcodes (t : String) :
    validBarcodes t = (findall13 t).filter (fun b => decide (b ∉ excludedBarcodes t))
    ∧ (validBarcodes t).Sublist (findall13 t)
    ∧ (∀ b, b ∈ excludedBarcodes t → b ∉ validBarcodes t)
    ∧ (∀ b, b ∈ findall13 t → b ∉ excludedBarcodes t → b ∈ validBarcodes t)
    ∧ validBarcodes "1111111111111 2222222222222 barcode: 1111111111111; 1111111111111"
        = ["2222222222222"] := by
  refine ⟨List.filter_congr (fun b _ => ?_), ?_, ?_, ?_, rfl⟩
  · simp
  · exact List.filter_sublist _
  · intro b hex hval
    rcases List.mem_filter.mp hval with ⟨-, hb⟩
    simp at hb
    exact hb hex
  · intro b hall hex
    exact List.mem_filter.mpr ⟨hall, by simpa using hex⟩

/-- Witness for C4 at a concrete text. -/
theorem c4_valid_barcodes_witness :
    ("9999999999999" ∈ excludedBarcodes "barcode: 9999999999999; 9999999999999"
      → "9999999999999" ∉ validBarcodes "barcode: 9999999999999; 9999999999999")
    ∧ "9999999999999" ∈ excludedBarcodes "barcode: 9999999999999; 9999999999999" :=
  ⟨(c4_valid_barcodes "barcode: 9999999999999; 9999999999999").2.2.1 _, by decide⟩

/-- C9 counterexample: `extract_data_from_pdf` reads the uploaded file and
does not restore the read position — on a two-byte stream at position 0
(here with a parser returning a 3-page document, the success path) the
position after the call is 2, not the pre-call 0.  The claim that every
PDF-extraction operation restores the position is therefore false. -/
theorem c9_counterexample :
    ((extract_data_from_pdf_io (fun _ => some ["", "", ""])
        ⟨['a', 'b'], 0⟩ none "01-01-2026").2).pos ≠
      (⟨['a', 'b'], 0⟩ : PyFile).pos := by
  decide

/-- C9 amended: `extract_order_id_only` restores the stream exactly (same
content, same position) on the success path and on both error paths, but
`extract_data_from_pdf` always leaves the position at end-of-stream (it
changes no content). -/
theorem c9_stream_positions (parse : List Char → Option (List String)) (f : PyFile)
    (manualColour : Option String) (today : String) :
    (extract_order_id_only_io parse f).2 = f
    ∧ (extract_data_from_pdf_io parse f manualColour today).2.pos = f.content.length
    ∧ (extract_data_from_pdf_io parse f manualColour today).2.content = f.content := by
  obtain ⟨content, pos⟩ := f
  refine ⟨?_, ?_, ?_⟩
  · simp only [extract_order_id_only_io, fileRead, fileSeek, List.drop_zero]
    cases hp : parse content with
    | none => simp [hp]
    | some pages =>
      by_cases h : pages.length < 1 <;> simp [hp, h]
  · simp only [extract_data_from_pdf_io, fileRead]
    cases hp : parse (content.drop pos) <;> simp [hp]
  · simp only [extract_data_from_pdf_io, fileRead]
    cases hp : parse (content.drop pos) <;> simp [hp]

/-- C2: given a price table with a PLN column, the lookup fails exactly when
the anchor value is not verbatim in that column (no nearest match: the
concrete conjunct is the claim's 19.99 against [9.99, 14.99, 24.99] case,
with a 14.99 row present); on success the matching index is the first
verbatim occurrence, and the result lists, for every column other than PLN,
the value of that row formatted per `format_number`. -/
theorem c2_price_lookup_exact (pln : Int) (pd : List (String × List Int)) (col : List Int)
    (h : lookupCol "PLN" pd = some col) :
    (find_closest_price pln pd = none ↔ pln ∉ col)
    ∧ (∀ idx : Nat, col.findIdx? (fun v => v == pln) = some idx →
        col[idx]? = some pln
        ∧ (∀ j : Nat, j < idx → col[j]? ≠ some pln)
        ∧ find_closest_price pln pd =
            some (pd.filterMap (fun p =>
              if p.1 == "PLN" then none
              else some (p.1, (p.2.get? idx).map (fun v => format_number v p.1)))))
    ∧ find_closest_price 1999 [("PLN", [999, 1499, 2499]), ("EUR", [199, 349, 549])] = none := by
  have heq : find_closest_price pln pd =
      match col.findIdx? (fun v => v == pln) with
      | none => none
      | some idx =>
        some (pd.filterMap (fun p =>
          if p.1 == "PLN" then none
          else some (p.1, (p.2.get? idx).map (fun v => format_number v p.1)))) := by
    unfold find_closest_price
    rw [h]
  refine ⟨?_, ?_, rfl⟩
  · cases hidx : col.findIdx? (fun v => v == pln) with
    | none =>
      rw [heq, hidx]
      have hall := List.findIdx?_eq_none_iff.mp hidx
      constructor
      · intro _ hmem
        simpa using hall pln hmem
      · intro _
        rfl
    | some idx =>
      rw [heq, hidx]
      have hmem : pln ∈ col := by
        rcases List.findIdx?_eq_some_iff_getElem.mp hidx with ⟨hlt, hp, -⟩
        have hcol : col[idx] = pln := by simpa using hp
        exact hcol ▸ List.getElem_mem hlt
      simp [hmem]
  · intro idx hidx
    rcases List.findIdx?_eq_some_iff_getElem.mp hidx with ⟨hlt, hp, hbefore⟩
    refine ⟨?_, ?_, ?_⟩
    · rw [List.getElem?_eq_getElem hlt]
      simpa using hp
    · intro j hj hcontra
      have hjlt : j < col.length := Nat.lt_trans hj hlt
      rw [List.getElem?_eq_getElem hjlt] at hcontra
      have hne := hbefore j hj
      simp only [Option.some.injEq] at hcontra
      simp [hcontra] at hne
    · rw [heq, hidx]

/-- Witness for C2 at a concrete table: anchor 14.99 hits row 1, and the EUR
column's row-1 value 3.49 is formatted as "3,49". -/
theorem c2_price_lookup_exact_witness :
    find_closest_price 1499 [("PLN", [999, 1499, 2499]), ("EUR", [199, 349, 549])] =
      some [("EUR", some "3,49")] := by
  have hspec := (c2_price_lookup_exact 1499
      [("PLN", [999, 1499, 2499]), ("EUR", [199, 349, 549])] [999, 1499, 2499] rfl).2.1
      1 (by decide)
  rw [hspec.2.2]
  rfl

/-- C5: `classify` agrees with first-match evaluation of the §4.4 ordered
rule table on every input; a string containing both "ladies outerwear" and
"mens outerwear" yields "a" (the code of the ladies rule, listed first);
empty input yields `none`, and so does any input matching no rule. -/
theorem c5_classify_rule_order :
    (∀ s : String, get_classification_type s =
        if s = "" then none else firstMatchClassification s)
    ∧ get_classification_type "Knitwear Ladies Outerwear with Mens Outerwear trim" = some "a"
    ∧ get_classification_type "" = none
    ∧ (∀ s : String,
        (∀ r ∈ classification_rules, containsSub (asciiLower s) r.1 = false) →
        get_classification_type s = none) := by
  refine ⟨classify_eq_firstMatch, by decide, rfl, ?_⟩
  intro s hall
  rw [classify_eq_firstMatch]
  by_cases hs : s = ""
  · simp [hs]
  · simp only [hs, if_false, firstMatchClassification]
    rw [List.find?_eq_none.mpr (fun r hr => by simp [hall r hr])]
    rfl

/-- Witness for C5 at a concrete no-match input. -/
theorem c5_classify_rule_order_witness :
    get_classification_type "plain woven tshirt" = none :=
  c5_classify_rule_order.2.2.2 "plain woven tshirt" (by decide)

/-- C10: classification succeeds exactly when the department is non-empty —
the ten substrings tested by `get_classification_type` are exactly the union
of the substring groups tested by `get_dept_value`, and both treat the empty
string as no-match. -/
theorem c10_classify_dept_agree (s : String) :
    (get_classification_type s).isSome = true ↔ get_dept_value s ≠ "" := by
  rw [classify_isSome_eq]
  exact (dept_nonempty_iff s).symm

/-- C8: the colour extractor signals manual input exactly when no line
survives the boilerplate/noise filter or the cleaned first survivor contains
"MANUAL"; otherwise it returns the cleaned first survivor, defaulting to
"UNKNOWN" when cleaning yields the empty string.  The concrete conjunct is
the spec §8 scenario page 2. -/
theorem c8_colour_extraction (text : String) :
    (survivors text = [] → extract_colour_from_page2 text = .requiresManual)
    ∧ (∀ (first : String) (rest : List String), survivors text = first :: rest →
        extract_colour_from_page2 text =
          (if containsSub (cleanColour first) "MANUAL" then .requiresManual
           else if cleanColour first = "" then .ok "UNKNOWN"
           else .ok (cleanColour first)))
    ∧ extract_colour_from_page2 "PURCHASE ORDER\n12, 34 / 56\n(12) Navy Blue\nPANTONE 123"
        = .ok "NAVY BLUE" := by
  refine ⟨?_, ?_, rfl⟩
  · intro h
    unfold extract_colour_from_page2
    rw [h]
  · intro first rest h
    unfold extract_colour_from_page2
    rw [h]

/-- Witness for C8: an all-boilerplate page pauses for manual input, a plain
colour line is cleaned and upper-cased. -/
theorem c8_colour_extraction_witness :
    extract_colour_from_page2 "TOTAL\n1 2 3" = .requiresManual
    ∧ extract_colour_from_page2 "(12) Navy Blue" = .ok "NAVY BLUE" :=
  ⟨(c8_colour_extraction "TOTAL\n1 2 3").1 (by decide),
   by rw [(c8_colour_extraction "(12) Navy Blue").2.1 "(12) Navy Blue" [] (by decide)]; decide⟩

/-- A "+"-join of non-empty strings is non-empty. -/
theorem joinPlus_ne_empty : ∀ (l : List String), l ≠ [] → (∀ x ∈ l, x ≠ "") → joinPlus l ≠ "" := by
  intro l hne hx
  match l with
  | [] => exact absurd rfl hne
  | [x] => simpa [joinPlus] using hx x (by simp)
  | x :: y :: r =>
    have hx0 : x ≠ "" := hx x (by simp)
    intro hcontra
    apply hx0
    have hdata : (x ++ "+" ++ joinPlus (y :: r)).data = [] := by
      rw [show x ++ "+" ++ joinPlus (y :: r) = joinPlus (x :: y :: r) from rfl, hcontra]
    simp only [String.data_append, List.append_eq_nil] at hdata
    exact String.ext (by simpa using hdata.1.1)

/-- C6 counterexample: the two Order-ID extraction patterns do not agree on
every page-1 text — the primary parser (`extract_data_from_pdf`, greedy
capture to end of line) reads "AB123 XY" where the secondary parser
(`extract_order_id_only`, restricted character class) reads "AB123". -/
theorem c6_counterexample :
    (searchAt matchOrderIdPrimary "Order - ID .......... AB123 XY".data).map pyStrip ≠
      (searchAt matchOrderIdOther "Order - ID .......... AB123 XY".data).map pyStrip := by
  decide

/-- C6 amended: when several documents are uploaded only the first is fully
parsed; each other document contributes only its order id, extracted by a
stricter case-insensitive page-1 pattern (captured class of letters, digits,
underscore, plus, hyphen) that does not agree with the primary parser on
every page-1 text; all non-empty extra ids, joined with "+", are appended
with a "+" separator onto the Order_ID of every record of the primary
document, all other record fields unchanged. -/
theorem c6_order_id_merge (recs : List Record) (otherTexts : List String) :
    ((otherTexts.filterMap extractOrderIdOnlyText).filter (fun s => s ≠ "") = [] →
      pepcoMergeOrderIds recs otherTexts = recs)
    ∧ ((otherTexts.filterMap extractOrderIdOnlyText).filter (fun s => s ≠ "") ≠ [] →
        (pepcoMergeOrderIds recs otherTexts).length = recs.length
        ∧ ∀ (i : Nat) (r : Record), recs[i]? = some r →
            (pepcoMergeOrderIds recs otherTexts)[i]? =
              some { r with
                Order_ID := r.Order_ID ++ "+" ++
                  joinPlus ((otherTexts.filterMap extractOrderIdOnlyText).filter
                    (fun s => s ≠ "")) }) := by
  constructor
  · intro h
    simp only [pepcoMergeOrderIds]
    rw [h]
    simp
  · intro h
    have hmem : ∀ x ∈ (otherTexts.filterMap extractOrderIdOnlyText).filter (fun s => s ≠ ""),
        x ≠ "" := by
      intro x hx
      simpa using (List.mem_filter.mp hx).2
    have hjoin := joinPlus_ne_empty _ h hmem
    have hempty : ((otherTexts.filterMap extractOrderIdOnlyText).filter
        (fun s => s ≠ "")).isEmpty = false := by
      simpa [List.isEmpty_iff] using h
    simp only [pepcoMergeOrderIds]
    rw [hempty]
    simp only [Bool.false_eq_true, if_false]
    rw [if_pos hjoin]
    constructor
    · simp
    · intro i r hr
      simp [List.getElem?_map, hr]

/-- Witness for C6 at one record and one extra document. -/
theorem c6_order_id_merge_witness :
    (pepcoMergeOrderIds [⟨"A1", "S", "C", "SPC", "IC", "SN", "TD", "COL", "CS", "SMS", "B", "BC"⟩]
        ["Order - ID .... X9"])[0]? =
      some ⟨"A1+X9", "S", "C", "SPC", "IC", "SN", "TD", "COL", "CS", "SMS", "B", "BC"⟩ := by
  rw [(c6_order_id_merge
      [⟨"A1", "S", "C", "SPC", "IC", "SN", "TD", "COL", "CS", "SMS", "B", "BC"⟩]
      ["Order - ID .... X9"]).2 (by decide) |>.2 0
      ⟨"A1", "S", "C", "SPC", "IC", "SN", "TD", "COL", "CS", "SMS", "B", "BC"⟩ rfl]
  decide

/-! ### Segment-parsing lemmas for C7 -/

/-- No marker starts at a non-pipe character. -/
theorem tagAt_none {c : Char} (h : c ≠ '|') (l : List Char) : tagAt (c :: l) = none := by
  have hb : ('|' == c) = false := by
    simp only [beq_eq_false_iff_ne, ne_eq]
    exact fun e => h e.symm
  simp [tagAt, allLangTags, language_order, tagMarker, List.find?, isPre, hb]

/-- Scanning over pipe-free text finds nothing new. -/
theorem parse_append_nopipe (t l : List Char) (h : ∀ c ∈ t, c ≠ '|') :
    parseTags (t ++ l) = parseTags l := by
  induction t with
  | nil => simp
  | cons c cs ih =>
    have hc : c ≠ '|' := h c (by simp)
    have hcs : ∀ d ∈ cs, d ≠ '|' := fun d hd => h d (by simp [hd])
    simp only [List.cons_append, parseTags, tagAt_none hc]
    exact ih hcs

theorem parse_nopipe (l : List Char) (h : ∀ c ∈ l, c ≠ '|') : parseTags l = [] := by
  simpa using parse_append_nopipe l [] h

/-- Each tag's own marker is recognized at its head (the 21 markers are
mutually prefix-free even with an arbitrary continuation). -/
theorem tagAt_marker (t : String) (ht : t ∈ allLangTags) (rest : List Char) :
    tagAt (tagMarker t ++ rest) = some t := by
  fin_cases ht <;>
    simp [tagAt, allLangTags, language_order, tagMarker, List.find?, isPre]

/-- No marker starts at the closing pipe-space of a marker. -/
theorem tagAt_pipe_space (rest : List Char) : tagAt ('|' :: ' ' :: rest) = none := by
  simp [tagAt, allLangTags, language_order, tagMarker, List.find?, isPre]

/-- Parsing a marker followed by anything yields its tag and continues after
the marker. -/
theorem parse_seg (t : String) (ht : t ∈ allLangTags) (htp : ∀ c ∈ t.data, c ≠ '|')
    (rest : List Char) :
    parseTags (tagMarker t ++ rest) = t :: parseTags rest := by
  have h1 : tagAt (tagMarker t ++ rest) = some t := tagAt_marker t ht rest
  have hshape : tagMarker t ++ rest = '|' :: (t.data ++ ('|' :: ' ' :: rest)) := by
    simp [tagMarker]
  rw [hshape] at h1 ⊢
  simp only [parseTags, h1]
  congr 1
  rw [parse_append_nopipe _ _ htp]
  simp only [parseTags, tagAt_pipe_space]
  simp only [parseTags, tagAt_none (show (' ' : Char) ≠ '|' by decide)]

/-- Every language tag is pipe-free. -/
theorem tags_nopipe : ∀ t ∈ allLangTags, ∀ c ∈ t.data, c ≠ '|' := by decide

/-- Round trip: parsing a space-join of tagged pipe-free segments recovers
exactly the tag list, in order. -/
theorem parse_join : ∀ (ts xs : List String), ts.length = xs.length →
    (∀ t ∈ ts, t ∈ allLangTags) → (∀ x ∈ xs, ∀ c ∈ x.data, c ≠ '|') →
    parseTags (joinSpace (List.zipWith (fun t x => "|" ++ t ++ "| " ++ x) ts xs)).data = ts := by
  intro ts
  induction ts with
  | nil =>
    intro xs _ _ _
    simp [joinSpace, parseTags]
  | cons t ts ih =>
    intro xs hlen htags hx
    cases xs with
    | nil => simp at hlen
    | cons x xs =>
      have hlen' : ts.length = xs.length := by simpa using hlen
      have htag : t ∈ allLangTags := htags t (by simp)
      have htags' : ∀ u ∈ ts, u ∈ allLangTags := fun u hu => htags u (by simp [hu])
      have hxh : ∀ c ∈ x.data, c ≠ '|' := hx x (by simp)
      have hx' : ∀ y ∈ xs, ∀ c ∈ y.data, c ≠ '|' := fun y hy => hx y (by simp [hy])
      have htp : ∀ c ∈ t.data, c ≠ '|' := tags_nopipe t htag
      have hseg : ("|" ++ t ++ "| " ++ x).data = tagMarker t ++ x.data := by
        simp [tagMarker, List.append_assoc]
      cases ts with
      | nil =>
        cases xs with
        | nil =>
          simp only [List.zipWith, joinSpace, hseg]
          rw [parse_seg t htag htp x.data, parse_nopipe x.data hxh]
        | cons x2 xs2 => simp at hlen'
      | cons t2 ts2 =>
        cases xs with
        | nil => simp at hlen'
        | cons x2 xs2 =>
          have hjoin : joinSpace (List.zipWith (fun u y => "|" ++ u ++ "| " ++ y)
              (t :: t2 :: ts2) (x :: x2 :: xs2)) =
              ("|" ++ t ++ "| " ++ x) ++ " " ++
                joinSpace (List.zipWith (fun u y => "|" ++ u ++ "| " ++ y)
                  (t2 :: ts2) (x2 :: xs2)) := by
            simp [joinSpace]
          rw [hjoin]
          have hdata : (("|" ++ t ++ "| " ++ x) ++ " " ++
              joinSpace (List.zipWith (fun u y => "|" ++ u ++ "| " ++ y)
                (t2 :: ts2) (x2 :: xs2))).data =
              tagMarker t ++ (x.data ++ (' ' ::
                (joinSpace (List.zipWith (fun u y => "|" ++ u ++ "| " ++ y)
                  (t2 :: ts2) (x2 :: xs2))).data)) := by
            simp only [String.data_append, hseg]
            simp [tagMarker, List.append_assoc]
          rw [hdata, parse_seg t htag htp, parse_append_nopipe _ _ hxh]
          simp only [parseTags, tagAt_none (show (' ' : Char) ≠ '|' by decide)]
          exact congrArg (t :: ·) (ih (x2 :: xs2) hlen' htags' hx')

/-- The assembled string is the space-join of the tagged segment texts. -/
theorem format_as_zip (pn : String) (row : String → Option String) (sm : List String)
    (mt mc : List (String × String)) :
    format_product_translations pn row sm mt mc =
      joinSpace (List.zipWith (fun t x => "|" ++ t ++ "| " ++ x) allLangTags
        (segTextsAll pn row sm mt mc)) := by
  unfold format_product_translations segTextsAll allLangTags
  congr 1

/-- C7 counterexample: the round-trip property fails when a segment text
itself contains a marker — with product name "|AL| x" and every language but
AL translated, the AL segment falls back to the product name and re-parsing
finds 22 segments, not 21. -/
theorem c7_counterexample :
    (parseTags (format_product_translations "|AL| x"
        (fun l => if l == "AL" then none else some "x") [] [] []).data).length ≠ 21 := by
  decide

/-- C7 amended: the assembled string is exactly the space-join of 21 tagged
segments, one per language in the fixed order EN, AL, BG, BiH, CZ, DE, EE,
ES, GR, HR, HU, IT, LT, LV, MK, PL, PT, RO, RS, SI, SK; provided no segment
text contains the pipe character, re-parsing the markers out of the string
recovers exactly that tag list (order and count 21). -/
theorem c7_segments_roundtrip (pn : String) (row : String → Option String)
    (sm : List String) (mt mc : List (String × String))
    (h : ∀ x ∈ segTextsAll pn row sm mt mc, ∀ c ∈ x.data, c ≠ '|') :
    format_product_translations pn row sm mt mc =
      joinSpace (List.zipWith (fun t x => "|" ++ t ++ "| " ++ x) allLangTags
        (segTextsAll pn row sm mt mc))
    ∧ allLangTags.length = 21
    ∧ parseTags (format_product_translations pn row sm mt mc).data = allLangTags := by
  refine ⟨format_as_zip pn row sm mt mc, rfl, ?_⟩
  rw [format_as_zip pn row sm mt mc]
  exact parse_join allLangTags (segTextsAll pn row sm mt mc)
    (by simp [allLangTags, language_order, segTextsAll]) (fun t ht => ht) h

/-- Witness for C7 at a concrete row with every language translated as "x". -/
theorem c7_segments_roundtrip_witness :
    parseTags (format_product_translations "Shirt" (fun _ => some "x") [] [] []).data =
      allLangTags :=
  (c7_segments_roundtrip "Shirt" (fun _ => some "x") [] [] [] (by decide)).2.2

end Pepco
